import Mathlib

/-!
Shallow embedding of `src/morse/middleware/dsaam_datastream.py` (the MORSE
DSAAM/ROS datastream manager) and proofs about its behaviour.

The embedding translates the Python source function by function:

* `dsaam_publish`            — the publish method installed on every generated
                               DSAAM proxy datastream (lines 77-98);
* `manager_init`             — `DSAAMROSDatastreamManager.__init__` (106-122);
* `register_component`      — `DSAAMROSDatastreamManager.register_component`
                               (129-153), including the proxy-type cache held in
                               the module dictionary;
* `datastream_init`          — `datastream_initialize` (33-66), the initialize
                               method installed on every proxy;
* `action`                   — `DSAAMROSDatastreamManager.action` (156-181),
                               the per-tick init/step + drain loop;
* `finalize`                 — `DSAAMROSDatastreamManager.finalize` (124-127).

Machine-level conventions: Python integers are unbounded, so `Int`/`Nat` are
used directly; Python `//` (floor division) is `pyFloorDiv`; Python `int()`
(truncation toward zero) is `pyInt`.  Float quantities (the simulation clock,
component frequencies) are modelled exactly as rationals.  Exceptions are
modelled with `Except`/`Option PyErr`; state mutations that survive an
exception are kept by returning the mutated state alongside the error.

The DSAAM node itself (`dsaam.ros.ros_node.RosNode`) and the MORSE core
(`morse.core.datastream.DatastreamManager`,
`morse.middleware.ros.abstract_ros`) are collaborators that are not part of
this source tree; where their behaviour is needed it is modelled from the
specification and marked as such on the definition.
-/

namespace MorseDsaam

/-- Python exception values observable from the embedded code.
`unboundLocalError` models CPython's `UnboundLocalError`, raised when a local
variable is referenced (or deleted) before assignment; it is a subclass of
`NameError`. -/
inductive PyErr where
  | unboundLocalError
  | configurationError
  | transportError
deriving DecidableEq

/-- CPython exception-class test: `UnboundLocalError` is a subclass of
`NameError`, so `isinstance(e, NameError)` holds for it. -/
def PyErr.isNameError : PyErr → Bool
  | .unboundLocalError => true
  | _ => false

/-- Python `int()` applied to an exact numeric value: truncation toward zero. -/
def pyInt (q : ℚ) : ℤ := if 0 ≤ q then ⌊q⌋ else ⌈q⌉

/-- Python `//` (floor division) on exact numeric values. -/
def pyFloorDiv (a b : ℚ) : ℤ := ⌊a / b⌋

/-- Constant `dsaam.time.NS_IN_SECOND`: the number of nanoseconds in one second. -/
def NS_IN_SECOND : ℚ := 1000000000

/-- The tick period in integer nanoseconds computed from a frequency in Hz.
This is the expression `int(NS_IN_SECOND//freq)` appearing both at line 48
(`period` in `datastream_initialize`) and at line 112 (`dt` in
`DSAAMROSDatastreamManager.__init__`). -/
def componentPeriod (freq : ℚ) : ℤ := pyFloorDiv NS_IN_SECOND freq

/-- Value of `dsaam.time.Time(secs, nsecs)` collapsed to the integer-nanosecond value it
denotes (line 85: `Time(m.header.stamp.secs, m.header.stamp.nsecs)`). -/
def timeOfStamp (secs nsecs : ℤ) : ℤ := secs * 1000000000 + nsecs

/-- Observable outcome of one successful `dsaam_publish` call: the topic and
timestamp handed to `self.dsaam_node.send`, whether the time-discrepancy
warning of lines 90-94 was logged, and the value of `self.sequence` after the
increment at line 97. -/
structure PubOutcome where
  sentTopic : String
  sentTime : ℤ
  warned : Bool
  sequence : ℤ
deriving DecidableEq

/-- Function `dsaam_publish` (lines 77-98).  Arguments: the adapter's bound topic, the
node's current time (`self.dsaam_node.time`), the `secs`/`nsecs` fields of the
outgoing message header, the adapter's current `self.sequence`, and whether the
underlying `send` primitive succeeds.  The message time is rebuilt from the
header; if it differs from the node time a warning is logged and the time is
overwritten with the node time (`m_time(self.dsaam_node.time)` at line 94 —
the call operator of the external `dsaam` `Time` class assigns to it, per the
specification's correction law).  The possibly corrected time is handed to
`send`, after which `self.sequence += 1`; if `send` raises, the increment at
line 97 is never reached. -/
def dsaam_publish (topic : String) (nodeTime : ℤ) (stampSecs stampNsecs : ℤ)
    (seq : ℤ) (sendOk : Bool) : Except PyErr PubOutcome :=
  let m_time := timeOfStamp stampSecs stampNsecs
  let r : ℤ × Bool := if m_time = nodeTime then (m_time, false) else (nodeTime, true)
  if sendOk then
    Except.ok { sentTopic := topic, sentTime := r.1, warned := r.2, sequence := seq + 1 }
  else
    Except.error PyErr.transportError

/-- An inbound message pending in the DSAAM node's queues: the topic it was
sent on, an opaque payload, and its delivery timestamp in nanoseconds. -/
structure Msg where
  topic : String
  payload : ℤ
  time : ℤ
deriving DecidableEq

/-- Role of a datastream: the proxy class derives from either `ROSPublisher`
or `ROSSubscriber` (lines 54 and 62 dispatch on this). -/
inductive Role where
  | publisher
  | subscriber
deriving DecidableEq

/-- One completed `setup_publisher`/`setup_subscriber` call on the DSAAM node
(lines 57-66): the topic, role, start time, period, resolved queue size and,
for publishers, the optional explicit sink list. -/
structure Registration where
  topic : String
  role : Role
  start_time : ℤ
  dt : ℤ
  queue_size : ℕ
  sinks : Option (List String)
deriving DecidableEq

/-- State of the DSAAM `RosNode` owned by the manager.  Modelled from the
spec: the node is an external collaborator (`dsaam.ros.ros_node.RosNode`, not
part of this source tree) exposing `time`, `dt`, `setup_publisher`,
`setup_subscriber`, `init`, `step`, `next_time`, `next` and `send` (spec 2/6).
`pending` holds the inbound messages not yet delivered, kept in delivery-time
order by the protocol; `delivered` logs the messages already dispatched to
subscriber callbacks; `initCount` counts the `init()` calls made so far. -/
structure NodeState where
  time : ℤ
  dt : ℤ
  default_qsize : ℕ
  pending : List Msg
  delivered : List Msg
  registrations : List Registration
  initCount : ℕ
deriving DecidableEq

/-- State of a `DSAAMROSDatastreamManager` instance together with the module
dictionary used as the proxy-type cache.  `moduleDict` records the names of
the generated `DSAAM<klass>` proxy classes set as module attributes at line
146.  `baseFinalized`/`nodeReleased` record whether `DatastreamManager
.finalize` has run and whether the owned node was actually released. -/
structure ManagerState where
  node : NodeState
  init_done : Bool
  moduleDict : List String
  baseFinalized : Bool
  nodeReleased : Bool
deriving DecidableEq

/-- Primitive operations invoked on the DSAAM node during one `action()` call,
in order. -/
inductive NodeCall where
  | rosInit
  | init
  | step (t : ℤ)
  | next (t : ℤ)
deriving DecidableEq

/-- The per-component registration inputs: the name of the ROS datastream
class resolved from `mw_data[1]` by `get_class` (resolution itself is assumed
to succeed; a bad classpath raises before any of the code modelled here runs),
the role it derives from, the topic name, the component frequency
(`self.component_instance.frequency`), and the `kwargs` consulted by
`datastream_initialize`: an explicit queue size, an optional `start_time`, and
an optional `subscribers` sink list. -/
structure MwData where
  klassName : String
  role : Role
  topic : String
  frequency : ℚ
  queue_size : Option ℕ
  start_time : Option ℤ
  sinks : Option (List String)
deriving DecidableEq

/-- Modelled from the spec: `ROSPublisher.determine_queue_size` lives in
`morse.middleware.ros.abstract_ros`, which is not part of this source tree.
Per spec 3 and 7, the queue size must be explicitly set; the node-level
default of 0 means "unset, not zero", and a queue size left unset with no
explicit override is a ConfigurationError raised immediately at
registration. -/
def determine_queue_size (explicit : Option ℕ) (node_default : ℕ) :
    Except PyErr ℕ :=
  match explicit with
  | some q => Except.ok q
  | none =>
    if node_default = 0 then Except.error PyErr.configurationError
    else Except.ok node_default

/-- Function `datastream_initialize` (lines 33-66), the initialize method installed on
every generated proxy.  It resolves the queue size, computes the period
`int(NS_IN_SECOND//freq)` from the component frequency, resolves the start
time (`kwargs.get("start_time", self.dsaam_node.time)`), and calls the node's
`setup_publisher` or `setup_subscriber` primitive, which records the topic
registration.  The base-class `initialize` call at line 43 touches only the
host-side datastream and is outside the node state modelled here. -/
def datastream_init (n : NodeState) (d : MwData) : Except PyErr NodeState :=
  match determine_queue_size d.queue_size n.default_qsize with
  | Except.error e => Except.error e
  | Except.ok qs =>
    let dt := componentPeriod d.frequency
    let st := d.start_time.getD n.time
    match d.role with
    | Role.publisher =>
      Except.ok { n with registrations :=
        n.registrations ++ [⟨d.topic, Role.publisher, st, dt, qs, d.sinks⟩] }
    | Role.subscriber =>
      Except.ok { n with registrations :=
        n.registrations ++ [⟨d.topic, Role.subscriber, st, dt, qs, none⟩] }

/-- Constructor `DSAAMROSDatastreamManager.__init__` (lines 106-122).  `simTime` is the
simulation's initial wall time in seconds
(`blenderapi.persistantstorage().time.time`, a float) and `blenderFreq` the
simulation tick frequency (`blenderapi.getfrequency()`).  The start time is
`Time(nanos=int(NS_IN_SECOND * simTime))`, then `start_time += dt` (the
"hack" at line 113); the node is created with `default_qsize = 0`, and
`init_done = False`. -/
def manager_init (simTime blenderFreq : ℚ) : ManagerState :=
  let start_time := pyInt (NS_IN_SECOND * simTime)
  let dt := componentPeriod blenderFreq
  let start_time := start_time + dt
  { node := { time := start_time, dt := dt, default_qsize := 0, pending := [],
              delivered := [], registrations := [], initCount := 0 },
    init_done := false, moduleDict := [], baseFinalized := false,
    nodeReleased := false }

/-- Method `DSAAMROSDatastreamManager.register_component` (lines 129-153).
`proxy_name = "DSAAM" + klass.__name__`; if the name is *not* yet in the
module dictionary, the proxy class is created and stored (lines 136-146).
The subsequent line 149 reads the local variable `proxy_class`
(`mw_data[1] = 'morse.middleware.dsaam_datastream.' + proxy_class.__name__`);
that local is bound only inside the `if` body, so when the cache already
holds `proxy_name` the branch is skipped and CPython raises
`UnboundLocalError` at line 149.  On the fresh path, the rewritten `mw_data`
is passed to `DatastreamManager.register_component`, which instantiates the
proxy datastream and runs its initialize method, i.e. `datastream_init`
(that the MORSE core calls initialize during registration is modelled from
the spec: registration errors are raised immediately, spec 4.2/7).  State
changes made before an exception (the module-dictionary insertion) persist. -/
def register_component (s : ManagerState) (d : MwData) :
    ManagerState × Option PyErr :=
  let proxyName := "DSAAM" ++ d.klassName
  if proxyName ∈ s.moduleDict then
    (s, some PyErr.unboundLocalError)
  else
    let s1 : ManagerState := { s with moduleDict := proxyName :: s.moduleDict }
    match datastream_init s1.node d with
    | Except.error e => (s1, some e)
    | Except.ok n2 => ({ s1 with node := n2 }, none)

/-- The drain loop of `action` (lines 177-178):
`while node.next_time() < next_time: node.next()`.  `node.next_time()` is the
timestamp of the earliest pending message; `node.next()` blocks until that
message is available, pops it and dispatches it to the bound subscriber
callback.  On a pending list this is: deliver the head while its time is
below the boundary.  Returns (delivered prefix, remaining queue). -/
def drainList (b : ℤ) : List Msg → List Msg × List Msg
  | [] => ([], [])
  | m :: rest =>
    if m.time < b then
      let p := drainList b rest
      (m :: p.1, p.2)
    else ([], m :: rest)

/-- Method `DSAAMROSDatastreamManager.action` (lines 156-181).
`next_time = node.time + node.dt` is computed first.  On the first call
(`init_done` false) the node performs `ros_init` and `init` and `init_done`
is set; on every later call `node.step(next_time)` is issued (the node
advances its clock to the declared boundary, spec 4.3).  Afterwards the drain
loop delivers every pending message strictly below `next_time`.  The second
component is the trace of node primitives invoked, in order. -/
def action (s : ManagerState) : ManagerState × List NodeCall :=
  let next_time := s.node.time + s.node.dt
  if s.init_done then
    let n1 : NodeState := { s.node with time := next_time }
    let p := drainList next_time n1.pending
    let n2 : NodeState := { n1 with pending := p.2, delivered := n1.delivered ++ p.1 }
    ({ s with node := n2 },
      NodeCall.step next_time :: p.1.map (fun m => NodeCall.next m.time))
  else
    let n1 : NodeState := { s.node with initCount := s.node.initCount + 1 }
    let p := drainList next_time n1.pending
    let n2 : NodeState := { n1 with pending := p.2, delivered := n1.delivered ++ p.1 }
    ({ s with node := n2, init_done := true },
      NodeCall.rosInit :: NodeCall.init :: p.1.map (fun m => NodeCall.next m.time))

/-- The local variables of `DSAAMROSDatastreamManager.finalize` that are bound
when control reaches the `del node` statement: the body (lines 125-127)
contains no assignment, so only the parameter `self` is bound.  The node is
reachable only as the attribute `self.node`; the bare name `node` is not. -/
def finalizeBoundLocals : List String := ["self"]

/-- Python `del x` on a function-local name: the `del` statement marks `x` as
local at compile time, and executing it when `x` is unbound raises
`UnboundLocalError` (a `NameError` subclass); otherwise the binding is
removed. -/
def pyDel (x : String) (bound : List String) : Except PyErr (List String) :=
  if x ∈ bound then Except.ok (bound.erase x) else Except.error PyErr.unboundLocalError

/-- Method `DSAAMROSDatastreamManager.finalize` (lines 124-127): first
`DatastreamManager.finalize(self)` (base-class teardown, which does not touch
the node), then `del node`.  Were the `del` to succeed it would merely drop a
local alias, but releasing the owned node is the documented intent, so the
(dead) success branch marks the node released. -/
def finalize (s : ManagerState) : ManagerState × Option PyErr :=
  let s1 : ManagerState := { s with baseFinalized := true }
  match pyDel ("node") finalizeBoundLocals with
  | Except.error e => (s1, some e)
  | Except.ok _ => ({ s1 with nodeReleased := true }, none)

/-! Sample concrete states used to witness theorems with hypotheses. -/

/-- A pending odometry message due before the first tick boundary. -/
def msgA : Msg := ⟨"odom", 1, 50000000⟩

/-- A pending odometry message due after the first tick boundary. -/
def msgB : Msg := ⟨"odom", 2, 250000000⟩

/-- A node at time 0 with a 10 Hz period and two pending messages. -/
def nodeA : NodeState :=
  { time := 0, dt := 100000000, default_qsize := 0, pending := [msgA, msgB],
    delivered := [], registrations := [], initCount := 0 }

/-- A freshly constructed manager (registration phase, nothing cached). -/
def mgrFresh : ManagerState :=
  { node := nodeA, init_done := false, moduleDict := [], baseFinalized := false,
    nodeReleased := false }

/-- The same manager after its first `action()` call has run `init()`. -/
def mgrStarted : ManagerState := { mgrFresh with init_done := true }

/-! Helper lemmas about the drain loop. -/

lemma drainList_append (b : ℤ) (l : List Msg) :
    (drainList b l).1 ++ (drainList b l).2 = l := by
  induction l with
  | nil => simp [drainList]
  | cons m rest ih =>
    by_cases h : m.time < b
    · simp [drainList, h, ih]
    · simp [drainList, h]

lemma drainList_rest_ge (b : ℤ) (l : List Msg)
    (hl : l.Pairwise (fun a c => a.time ≤ c.time)) :
    ∀ m ∈ (drainList b l).2, b ≤ m.time := by
  induction l with
  | nil => simp [drainList]
  | cons x rest ih =>
    rcases List.pairwise_cons.mp hl with ⟨hx, hrest⟩
    by_cases h : x.time < b
    · simpa [drainList, h] using ih hrest
    · intro m hm
      simp only [drainList, h, if_false, List.mem_cons] at hm
      rcases hm with rfl | hm
      · exact not_lt.mp h
      · exact le_trans (not_lt.mp h) (hx m hm)

lemma drainList_count (b : ℤ) (l : List Msg)
    (hl : l.Pairwise (fun a c => a.time ≤ c.time))
    (m : Msg) (hm : m.time < b) :
    (drainList b l).1.count m = l.count m := by
  have h1 : (drainList b l).1.count m + (drainList b l).2.count m = l.count m := by
    rw [← List.count_append, drainList_append]
  have h2 : (drainList b l).2.count m = 0 :=
    List.count_eq_zero.mpr
      (fun hmem => absurd (drainList_rest_ge b l hl m hmem) (not_le.mpr hm))
  omega

lemma init_not_mem_map_next (l : List Msg) :
    NodeCall.init ∉ l.map (fun m => NodeCall.next m.time) := by
  simp

lemma step_not_mem_map_next (l : List Msg) (t : ℤ) :
    NodeCall.step t ∉ l.map (fun m => NodeCall.next m.time) := by
  simp

lemma count_init_map_next (l : List Msg) :
    (l.map (fun m => NodeCall.next m.time)).count NodeCall.init = 0 :=
  List.count_eq_zero.mpr (init_not_mem_map_next l)

lemma count_step_map_next (l : List Msg) (t : ℤ) :
    (l.map (fun m => NodeCall.next m.time)).count (NodeCall.step t) = 0 :=
  List.count_eq_zero.mpr (step_not_mem_map_next l t)

/-- The period is positive whenever the frequency is positive and does not
exceed one tick per nanosecond. -/
lemma componentPeriod_pos (f : ℚ) (h0 : 0 < f) (hle : f ≤ NS_IN_SECOND) :
    0 < componentPeriod f := by
  have h1 : (1 : ℚ) ≤ NS_IN_SECOND / f := (one_le_div h0).mpr hle
  have h2 : (1 : ℤ) ≤ ⌊NS_IN_SECOND / f⌋ := Int.le_floor.mpr (by exact_mod_cast h1)
  unfold componentPeriod pyFloorDiv
  omega

/-! Claim theorems. -/

/-- Claim C1: every publish call hands the node's `send` primitive a message
whose timestamp equals the node's current time: when the caller-supplied
stamp differs from the node time, `dsaam_publish` overwrites it with the node
time and logs a (non-fatal) drift warning before sending; when it matches, no
warning is logged. -/
theorem dsaam_publish_corrects_time (topic : String)
    (nodeTime stampSecs stampNsecs seq : ℤ) (out : PubOutcome)
    (h : dsaam_publish topic nodeTime stampSecs stampNsecs seq true = Except.ok out) :
    out.sentTime = nodeTime ∧
    (timeOfStamp stampSecs stampNsecs ≠ nodeTime → out.warned = true) ∧
    (timeOfStamp stampSecs stampNsecs = nodeTime → out.warned = false) := by
  by_cases heq : timeOfStamp stampSecs stampNsecs = nodeTime <;>
    simp [dsaam_publish, heq] at h <;> simp [← h, heq]

/-- Witness for C1: a message stamped 1 ns behind a node at time 100 is sent
carrying time 100, with the drift warning raised. -/
theorem dsaam_publish_corrects_time_witness :
    (⟨"odom", 100, true, 8⟩ : PubOutcome).sentTime = 100 ∧
    (timeOfStamp 0 99 ≠ 100 → (⟨"odom", 100, true, 8⟩ : PubOutcome).warned = true) ∧
    (timeOfStamp 0 99 = 100 → (⟨"odom", 100, true, 8⟩ : PubOutcome).warned = false) :=
  dsaam_publish_corrects_time ("odom") 100 0 99 7 ⟨"odom", 100, true, 8⟩ rfl

/-- Claim C8: every successful publish increments the adapter's sequence
counter by exactly 1, independently of the message timestamp, so the counter
is strictly increasing across successive publishes on the same adapter. -/
theorem dsaam_publish_increments_sequence (topic : String)
    (nodeTime stampSecs stampNsecs seq : ℤ) (out : PubOutcome)
    (h : dsaam_publish topic nodeTime stampSecs stampNsecs seq true = Except.ok out) :
    out.sequence = seq + 1 ∧ seq < out.sequence := by
  by_cases heq : timeOfStamp stampSecs stampNsecs = nodeTime <;>
    simp [dsaam_publish, heq] at h <;> simp [← h]

/-- Witness for C8: a publish on an adapter with sequence 3, stamped 1 ns
behind the node time (Scenario B), bumps the sequence to exactly 4. -/
theorem dsaam_publish_increments_sequence_witness :
    (⟨"pose", 500, true, 4⟩ : PubOutcome).sequence = 3 + 1 ∧
    3 < (⟨"pose", 500, true, 4⟩ : PubOutcome).sequence :=
  dsaam_publish_increments_sequence ("pose") 500 0 499 3 ⟨"pose", 500, true, 4⟩ rfl

/-- Claim C9: every `finalize()` call runs the base-class finalize and then
executes `del node` on a name that is not bound in its scope, so it raises an
`UnboundLocalError` (a `NameError`) and never releases the coordinator's owned
node. -/
theorem finalize_raises_name_error (s : ManagerState) :
    (finalize s).2 = some PyErr.unboundLocalError ∧
    PyErr.isNameError PyErr.unboundLocalError = true ∧
    (finalize s).1.baseFinalized = true ∧
    (finalize s).1.nodeReleased = s.nodeReleased := by
  simp [finalize, pyDel, finalizeBoundLocals, PyErr.isNameError]

/-- Claim C2: on the first `action()` call the node's `init()` is invoked
exactly once and `step` is never called, and initialization is marked done;
on every later call `init()` is not invoked and `step` is called exactly once,
with argument `node.time + node.dt`; and a manager built at tick frequency
10 Hz has dt = 100,000,000 ns. -/
theorem action_first_inits_then_steps (s : ManagerState) :
    (s.init_done = false →
      (action s).2.count NodeCall.init = 1 ∧
      (∀ t : ℤ, NodeCall.step t ∉ (action s).2) ∧
      (action s).1.init_done = true) ∧
    (s.init_done = true →
      NodeCall.init ∉ (action s).2 ∧
      (action s).2.count (NodeCall.step (s.node.time + s.node.dt)) = 1 ∧
      (∀ t : ℤ, NodeCall.step t ∈ (action s).2 → t = s.node.time + s.node.dt) ∧
      (action s).1.init_done = true) ∧
    (manager_init 0 10).node.dt = 100000000 := by
  refine ⟨fun h => ?_, fun h => ?_, ?_⟩
  · refine ⟨?_, fun t => ?_, ?_⟩
    · simp [action, h, List.count_cons, count_init_map_next]
    · simp [action, h, step_not_mem_map_next]
    · simp [action, h]
  · refine ⟨?_, ?_, fun t ht => ?_, ?_⟩
    · simp [action, h, init_not_mem_map_next]
    · simp [action, h, List.count_cons, count_step_map_next]
    · simpa [action, h, step_not_mem_map_next] using ht
    · simp [action, h]
  · show componentPeriod 10 = 100000000
    unfold componentPeriod pyFloorDiv NS_IN_SECOND
    norm_num

/-- Witness for C2: on the fresh sample manager (initialization pending), the
first `action()` call emits exactly one `init()`. -/
theorem action_first_inits_then_steps_witness :
    (action mgrFresh).2.count NodeCall.init = 1 :=
  ((action_first_inits_then_steps mgrFresh).1 rfl).1

/-- Claim C3: upon return from `action()`, every pending message with
delivery timestamp strictly below `nextBoundary = node.time + node.dt` has
been delivered exactly once (each pending occurrence below the boundary adds
exactly one occurrence to the delivered log), and no message below the
boundary remains pending. -/
theorem action_drains_below_boundary (s : ManagerState)
    (hs : s.node.pending.Pairwise (fun a c => a.time ≤ c.time)) :
    (∀ m : Msg, m.time < s.node.time + s.node.dt →
      (action s).1.node.delivered.count m
        = s.node.delivered.count m + s.node.pending.count m) ∧
    (∀ m ∈ (action s).1.node.pending, s.node.time + s.node.dt ≤ m.time) := by
  constructor
  · intro m hm
    cases h : s.init_done
    · simp [action, h, List.count_append, drainList_count _ _ hs m hm]
    · simp [action, h, List.count_append, drainList_count _ _ hs m hm]
  · intro m hmem
    cases h : s.init_done
    · simp [action, h] at hmem
      exact drainList_rest_ge _ _ hs m hmem
    · simp [action, h] at hmem
      exact drainList_rest_ge _ _ hs m hmem

/-- Witness for C3: on the fresh sample manager, the message due at
50,000,000 ns (below the 100,000,000 ns boundary) is delivered exactly once
by the first `action()` call. -/
theorem action_drains_below_boundary_witness :
    (action mgrFresh).1.node.delivered.count msgA
      = mgrFresh.node.delivered.count msgA + mgrFresh.node.pending.count msgA :=
  (action_drains_below_boundary mgrFresh
      (by norm_num [mgrFresh, nodeA, msgA, msgB, List.pairwise_cons])).1
    msgA (by norm_num [mgrFresh, nodeA, msgA])

/-- Registration inputs for a publisher datastream of class
`OdometrySender`. -/
def odomPubData : MwData :=
  { klassName := "OdometrySender", role := Role.publisher, topic := "robot/odom",
    frequency := 10, queue_size := some 10, start_time := none, sinks := none }

/-- A second component using the same datastream class (hence the same
generated proxy type), bound to a different topic. -/
def odomPubData2 : MwData := { odomPubData with topic := "robot2/odom" }

/-- Claim C4 (evaluation at the failing input): the first registration of a
message type succeeds and caches the proxy type, but the second registration
with the same message type raises `UnboundLocalError` instead of reusing the
cached type: the local `proxy_class` read at line 149 is bound only when the
cache misses. -/
theorem register_component_second_same_type_crashes :
    (register_component mgrFresh odomPubData).2 = none ∧
    "DSAAMOdometrySender" ∈ (register_component mgrFresh odomPubData).1.moduleDict ∧
    (register_component (register_component mgrFresh odomPubData).1 odomPubData2).2
      = some PyErr.unboundLocalError := by
  refine ⟨rfl, ?_, rfl⟩
  simp [register_component, mgrFresh, odomPubData, datastream_init,
    determine_queue_size]

/-- Registration inputs for a subscriber datastream with no explicit queue
size. -/
def scanSubData : MwData :=
  { klassName := "LaserScanListener", role := Role.subscriber,
    topic := "robot/scan", frequency := 10, queue_size := none,
    start_time := none, sinks := none }

/-- Claim C6: registering a subscriber with no explicit queue size while the
node-level default is 0 ("unset") fails immediately with a
ConfigurationError: no topic is registered on the node and the node's
`init()` has not been called. -/
theorem register_subscriber_unset_queue_fails (s : ManagerState) (d : MwData)
    (_hrole : d.role = Role.subscriber)
    (hq : d.queue_size = none)
    (hdq : s.node.default_qsize = 0)
    (hfresh : ("DSAAM" ++ d.klassName) ∉ s.moduleDict) :
    (register_component s d).2 = some PyErr.configurationError ∧
    (register_component s d).1.node.initCount = s.node.initCount ∧
    (register_component s d).1.node.registrations = s.node.registrations := by
  simp [register_component, hfresh, datastream_init, determine_queue_size, hq, hdq]

/-- Witness for C6: registering the sample queue-less subscriber on the fresh
manager (whose node default queue size is 0) raises ConfigurationError. -/
theorem register_subscriber_unset_queue_fails_witness :
    (register_component mgrFresh scanSubData).2 = some PyErr.configurationError :=
  (register_subscriber_unset_queue_fails mgrFresh scanSubData rfl rfl rfl
    (by simp [mgrFresh])).1

/-- Registration inputs for a publisher registered after initialization. -/
def imuPubData : MwData :=
  { klassName := "ImuSender", role := Role.publisher, topic := "robot/imu",
    frequency := 10, queue_size := some 5, start_time := some 0, sinks := none }

/-- Counterexample to claim C7: on a manager whose node is already
initialized, registering a fresh component does not fail with a
ConfigurationError — it completes and appends the registration, because
`register_component` never consults `init_done`. -/
theorem register_after_init_succeeds_cex :
    mgrStarted.init_done = true ∧
    (register_component mgrStarted imuPubData).2 ≠ some PyErr.configurationError ∧
    (register_component mgrStarted imuPubData).2 = none ∧
    (register_component mgrStarted imuPubData).1.node.registrations
      = mgrStarted.node.registrations
        ++ [⟨"robot/imu", Role.publisher, 0, componentPeriod 10, 5, none⟩] := by
  refine ⟨rfl, by simp [register_component, mgrStarted, mgrFresh, imuPubData,
    datastream_init, determine_queue_size], rfl, rfl⟩

/-- Claim C7 as amended: `register_component` performs no
initialization-state check, so a call made after the node has been
initialized, with a fresh message type and an explicit queue size, proceeds
with the registration and raises no error at all (in particular no
ConfigurationError). -/
theorem register_after_init_not_guarded (s : ManagerState) (d : MwData) (q : ℕ)
    (_hinit : s.init_done = true)
    (hfresh : ("DSAAM" ++ d.klassName) ∉ s.moduleDict)
    (hq : d.queue_size = some q) :
    (register_component s d).2 = none ∧
    ∃ r : Registration,
      (register_component s d).1.node.registrations
        = s.node.registrations ++ [r] := by
  cases hrole : d.role
  · refine ⟨?_, ⟨d.topic, Role.publisher, d.start_time.getD s.node.time,
        componentPeriod d.frequency, q, d.sinks⟩, ?_⟩ <;>
      simp [register_component, hfresh, datastream_init, determine_queue_size,
        hq, hrole]
  · refine ⟨?_, ⟨d.topic, Role.subscriber, d.start_time.getD s.node.time,
        componentPeriod d.frequency, q, none⟩, ?_⟩ <;>
      simp [register_component, hfresh, datastream_init, determine_queue_size,
        hq, hrole]

/-- Registration inputs used to witness the amended claim C7. -/
def gpsPubData : MwData :=
  { klassName := "GpsSender", role := Role.publisher, topic := "robot/gps",
    frequency := 5, queue_size := some 1, start_time := none, sinks := none }

/-- Witness for the amended claim C7: a post-initialization registration of a
fresh publisher completes without error. -/
theorem register_after_init_not_guarded_witness :
    (register_component mgrStarted gpsPubData).2 = none :=
  (register_after_init_not_guarded mgrStarted gpsPubData 1 rfl
    (by simp [mgrStarted, mgrFresh]) rfl).1

/-- Claim C5 as amended: for every positive component frequency of at most
10^9 Hz, the period computed at registration (line 48) and at manager
construction (line 112) equals `floor(1e9 / frequency)` nanoseconds and is
strictly positive.  (For frequencies above 10^9 Hz the computed period is 0;
see the counterexample.) -/
theorem componentPeriod_floor_pos (f : ℚ) (h0 : 0 < f) (hle : f ≤ NS_IN_SECOND) :
    componentPeriod f = ⌊NS_IN_SECOND / f⌋ ∧ 0 < componentPeriod f ∧
    (manager_init 0 f).node.dt = componentPeriod f :=
  ⟨rfl, componentPeriod_pos f h0 hle, rfl⟩

/-- Witness for the amended claim C5: at 10 Hz the period is the floor of
1e9/10 and is positive. -/
theorem componentPeriod_floor_pos_witness :
    componentPeriod 10 = ⌊NS_IN_SECOND / 10⌋ ∧ 0 < componentPeriod 10 ∧
    (manager_init 0 10).node.dt = componentPeriod 10 :=
  componentPeriod_floor_pos 10 (by norm_num) (by norm_num [NS_IN_SECOND])

/-- Counterexample to claim C5 as stated: 2×10^9 Hz is a positive frequency,
yet the computed period `int(NS_IN_SECOND // freq)` is 0, not strictly
positive. -/
theorem componentPeriod_zero_at_high_freq :
    (0 : ℚ) < 2000000000 ∧ componentPeriod 2000000000 = 0 ∧
    ¬ 0 < componentPeriod 2000000000 := by
  have h : componentPeriod 2000000000 = 0 := by
    unfold componentPeriod pyFloorDiv NS_IN_SECOND
    rw [show (1000000000 : ℚ) / 2000000000 = 1/2 by norm_num]
    rw [Int.floor_eq_zero_iff]
    constructor <;> norm_num
  exact ⟨by norm_num, h, by omega⟩

/-- Claim C10: the node's initial logical time is not the supplied simulation
initial wall time but that time plus one tick: it equals
`floor(1e9 * simTime) + dt`, so (for any sensible tick frequency) it differs
from the converted host time `int(1e9 * simTime)`. -/
theorem manager_init_time_offset (t f : ℚ) (ht : 0 ≤ t) :
    (manager_init t f).node.time
      = ⌊NS_IN_SECOND * t⌋ + (manager_init t f).node.dt ∧
    (0 < f → f ≤ NS_IN_SECOND →
      (manager_init t f).node.time ≠ pyInt (NS_IN_SECOND * t)) := by
  have hnn : (0 : ℚ) ≤ NS_IN_SECOND * t :=
    mul_nonneg (by norm_num [NS_IN_SECOND]) ht
  constructor
  · show pyInt (NS_IN_SECOND * t) + componentPeriod f
      = ⌊NS_IN_SECOND * t⌋ + componentPeriod f
    rw [pyInt, if_pos hnn]
  · intro h0 hle
    have hpos := componentPeriod_pos f h0 hle
    show pyInt (NS_IN_SECOND * t) + componentPeriod f ≠ pyInt (NS_IN_SECOND * t)
    omega

/-- Witness for C10: with initial wall time 1.5 s and tick frequency 10 Hz,
the node starts at `floor(1.5e9) + dt`, one tick ahead of the converted host
time. -/
theorem manager_init_time_offset_witness :
    ((manager_init (3/2) 10).node.time
      = ⌊NS_IN_SECOND * (3/2 : ℚ)⌋ + (manager_init (3/2) 10).node.dt ∧
    ((0 : ℚ) < 10 → (10 : ℚ) ≤ NS_IN_SECOND →
      (manager_init (3/2) 10).node.time ≠ pyInt (NS_IN_SECOND * (3/2 : ℚ)))) :=
  manager_init_time_offset (3/2) 10 (by norm_num)

end MorseDsaam
